import Mathlib

/-!
Shallow embedding of the multi-provider search orchestration core of the
mcp-ddg-ts repository, and proofs of the specification's claims about it.

The embedded code:
- `src/tools/search-tool.ts` — `WebSearchTool`: the `execute` orchestration
  method, the DuckDuckGo suspension state (`suspendDuckDuckGo`,
  `isLikelyRateLimited`), and the result-parsing truncation loop
  (`parseSearchResults`).
- `src/utils/request-manager.ts` — `RequestManager`: `waitForRequest`
  (rate-limit pacing over a sliding window plus minimum spacing) and
  `getUserAgent` (deterministic user-agent rotation).
- `src/descriptions.ts` — the fixed `userAgents.searchAgents` list.

Timestamps are milliseconds as `Int` (JavaScript `Date.now()` values);
durations are `Nat` milliseconds.  Network and HTML parsing are external
effects: a provider round-trip is represented by its observable outcome
(HTTP failure status, or a successful body given as the parsed result rows
plus the body length), and `execute` is a pure function of the current
time, the mutable state it reads, and the two providers' outcomes,
returning the response/error together with the updated state and the
number of times each provider was invoked.
-/

/-! ### Suspension state (static fields of `WebSearchTool`) -/

/-- `WebSearchTool`'s static suspension-tracking fields:
`duckDuckGoSuspendedUntil` (ms timestamp) and `suspensionCount`. -/
structure SuspensionState where
  duckDuckGoSuspendedUntil : Int
  suspensionCount : Nat
  deriving Repr, DecidableEq

/-- `SUSPENSION_DURATION = 20 * 60 * 1000` — 20 minutes in milliseconds. -/
def SUSPENSION_DURATION : Nat := 20 * 60 * 1000

/-- `suspendDuckDuckGo()`: increments `suspensionCount`, computes
`backoffMultiplier = Math.min(Math.pow(2, suspensionCount - 1), 6)` and
sets `duckDuckGoSuspendedUntil = now + SUSPENSION_DURATION * backoffMultiplier`. -/
def suspendDuckDuckGo (now : Int) (s : SuspensionState) : SuspensionState :=
  let count := s.suspensionCount + 1
  let backoffMultiplier := min (2 ^ (count - 1)) 6
  let suspensionDuration := SUSPENSION_DURATION * backoffMultiplier
  { duckDuckGoSuspendedUntil := now + (suspensionDuration : Int)
    suspensionCount := count }

/-! ### Request manager (`src/utils/request-manager.ts`) -/

/-- The mutable fields of the singleton `RequestManager`:
`lastRequestTime`, `requestCount`, and the sliding-window `requestTimes`. -/
structure RequestLedger where
  lastRequestTime : Int
  requestCount : Nat
  requestTimes : List Int
  deriving Repr, DecidableEq

/-- `minDelay = 2000` ms — minimum spacing between requests. -/
def minDelay : Nat := 2000

/-- `maxRequestsPerMinute = 10` — sliding-window cap. -/
def maxRequestsPerMinute : Nat := 10

/-- The cleanup loop at the top of `waitForRequest`:
`while (requestTimes.length > 0 && requestTimes[0] < oneMinuteAgo) shift()`. -/
def cleanOldRequestTimes (oneMinuteAgo : Int) (times : List Int) : List Int :=
  times.dropWhile (fun t => t < oneMinuteAgo)

/-- The Policy A sleep of `waitForRequest`, as the code computes it:
if at least `maxRequestsPerMinute` entries survive cleanup, the code calls
`sleep(oneMinuteAgo - oldestRequest + 1000)`.  `setTimeout` clamps a
negative delay to zero, so the elapsed sleep is `Int.toNat` of that value. -/
def policyAWait (now : Int) (l : RequestLedger) : Nat :=
  let oneMinuteAgo := now - 60000
  let times := cleanOldRequestTimes oneMinuteAgo l.requestTimes
  if times.length ≥ maxRequestsPerMinute then
    (oneMinuteAgo - times.headD 0 + 1000).toNat
  else 0

/-- The Policy B sleep of `waitForRequest`: if `now - lastRequestTime`
is below `minDelay`, sleep the remainder.  (`now` is the timestamp read at
the start of `waitForRequest`; the code reuses it after the Policy A sleep.) -/
def policyBWait (now : Int) (l : RequestLedger) : Nat :=
  let timeSinceLastRequest := now - l.lastRequestTime
  if timeSinceLastRequest < (minDelay : Int) then
    ((minDelay : Int) - timeSinceLastRequest).toNat
  else 0

/-- `waitForRequest()` at time `now`: returns the total milliseconds slept
and the updated ledger.  After sleeping, the code records
`lastRequestTime = Date.now()` (i.e. `now` plus the elapsed sleeps), pushes
it onto `requestTimes`, and increments `requestCount`. -/
def waitForRequest (now : Int) (l : RequestLedger) : Nat × RequestLedger :=
  let times := cleanOldRequestTimes (now - 60000) l.requestTimes
  let slept := policyAWait now l + policyBWait now l
  let finish := now + (slept : Int)
  (slept,
   { lastRequestTime := finish
     requestCount := l.requestCount + 1
     requestTimes := times ++ [finish] })

/-- `userAgents.searchAgents` from `src/descriptions.ts`: the five fixed
browser-identity strings rotated by the request manager. -/
def searchAgents : List String :=
  [ "Mozilla/5.0 (Windows NT 10.0; Win64; x64) AppleWebKit/537.36 (KHTML, like Gecko) Chrome/120.0.0.0 Safari/537.36"
  , "Mozilla/5.0 (Windows NT 10.0; Win64; x64) AppleWebKit/537.36 (KHTML, like Gecko) Chrome/119.0.0.0 Safari/537.36"
  , "Mozilla/5.0 (Macintosh; Intel Mac OS X 10_15_7) AppleWebKit/537.36 (KHTML, like Gecko) Chrome/120.0.0.0 Safari/537.36"
  , "Mozilla/5.0 (Windows NT 10.0; Win64; x64; rv:120.0) Gecko/20100101 Firefox/120.0"
  , "Mozilla/5.0 (Macintosh; Intel Mac OS X 10_15_7) AppleWebKit/605.1.15 (KHTML, like Gecko) Version/17.1 Safari/605.1.15" ]

/-- `getUserAgent()`: `searchAgents[requestCount % searchAgents.length]`. -/
def getUserAgent (requestCount : Nat) : String :=
  searchAgents.getD (requestCount % searchAgents.length) ""

/-! ### Search results and parsing (`src/tools/search-tool.ts`) -/

/-- `SearchResult` value type. -/
structure SearchResult where
  title : String
  url : String
  keywords : List String
  summary : String
  deriving Repr, DecidableEq

/-- One `.result` row of the provider's HTML as the DOM query extracts it:
title text, href, and snippet text.  (Selector evaluation itself is cheerio,
an external effect; the rows are the embedding boundary.) -/
structure RawRow where
  title : String
  url : String
  snippet : String
  deriving Repr, DecidableEq

/-- The `ContentExtractor` collaborator (spec §6): `extractKeywords` and
`createIntelligentSummary` are pure stateless text heuristics declared out
of the core's scope, so the orchestrator model is parameterised over them. -/
structure ContentExtractor where
  extractKeywords : String → String → List String
  createIntelligentSummary : String → String → String → String

/-- The `$(".result").each` loop body of `parseSearchResults`: stop once
`results.length >= maxResults`; skip a row whose title or href is empty;
otherwise push the built result. -/
def parseLoop (ce : ContentExtractor) (maxResults : Int) :
    List RawRow → List SearchResult → List SearchResult
  | [], results => results
  | row :: rest, results =>
    if (results.length : Int) ≥ maxResults then results
    else if row.title = "" ∨ row.url = "" then parseLoop ce maxResults rest results
    else
      parseLoop ce maxResults rest
        (results ++ [{ title := row.title
                       url := row.url
                       keywords := ce.extractKeywords row.title row.snippet
                       summary := ce.createIntelligentSummary row.title row.snippet row.url }])

/-- `parseSearchResults(html, maxResults)` on the rows extracted from the
body.  `maxResults` is an `Int`: the tool never lower-bounds it. -/
def parseSearchResults (ce : ContentExtractor) (rows : List RawRow) (maxResults : Int) :
    List SearchResult :=
  parseLoop ce maxResults rows []

/-- The guard `!query || query.trim().length === 0`: `trim` strips leading
and trailing whitespace, so the trimmed length is zero exactly when every
character of the query is whitespace (the empty string included, which also
covers the `!query` falsiness disjunct). -/
def blankQuery (query : String) : Bool :=
  query.data.all fun c => c.isWhitespace

/-- `isLikelyRateLimited(query)`: the source returns `true` unconditionally
("For now, always try Bing if DDG returns no results"). -/
def isLikelyRateLimited (_query : String) : Bool := true

/-! ### The orchestrator (`WebSearchTool.execute`) -/

/-- Observable outcome of the DuckDuckGo round-trip in `searchDuckDuckGo`:
a non-ok HTTP status (which throws `HTTP status: statusText`), or an ok
response whose body yields the given rows and has the given length. -/
inductive DdgOutcome where
  | httpFail (status : Nat)
  | ok (rows : List RawRow) (htmlLength : Nat)
  deriving Repr, DecidableEq

/-- Observable outcome of the Brave round-trip in `searchBrave`: a non-ok
HTTP status (which throws), or the parsed result list. -/
inductive BraveOutcome where
  | httpFail (status : Nat)
  | ok (results : List SearchResult)
  deriving Repr, DecidableEq

/-- `SearchResponse` value type. -/
structure SearchResponse where
  query : String
  totalResults : Nat
  searchProvider : String
  results : List SearchResult
  deriving Repr, DecidableEq

/-- The errors `execute` can throw: the two argument-validation errors
thrown before the `try`, and the outer catch's
`Search failed on all providers: ...` wrapper. -/
inductive ExecError where
  | emptyQuery
  | maxResultsExceeded
  | allProvidersFailed
  deriving Repr, DecidableEq

/-- What one `execute` call did: its returned response or thrown error, the
suspension state afterwards, and how many times each provider's search
method was entered (a provider invocation is what dispatches a network
request and touches the request ledger). -/
structure ExecResult where
  outcome : Except ExecError SearchResponse
  state : SuspensionState
  primaryCalls : Nat
  secondaryCalls : Nat
  deriving Repr

/-- The `query` field of the response:
`enhancedQuery !== query ? query + " (enhanced: " + enhancedQuery + ")" : query`. -/
def displayQuery (query enhancedQuery : String) : String :=
  if enhancedQuery ≠ query then query ++ " (enhanced: " ++ enhancedQuery ++ ")" else query

/-- `WebSearchTool.execute(args)` at time `now` in state `s`.
`maxResults` is the caller's value (default 10 applied by the caller);
`enhancedQuery` is what `preferredSites.enhanceQuery` returned (it never
throws: `loadSites` swallows its own errors).  `ddg`/`brave` are the
outcomes the two providers would produce if invoked this call. -/
def execute (ce : ContentExtractor) (now : Int) (s : SuspensionState)
    (query : String) (maxResults : Int) (enhancedQuery : String)
    (ddg : DdgOutcome) (brave : BraveOutcome) : ExecResult :=
  if blankQuery query then
    ⟨.error .emptyQuery, s, 0, 0⟩
  else if maxResults > 50 then
    ⟨.error .maxResultsExceeded, s, 0, 0⟩
  else
    let isDuckDuckGoSuspended := now < s.duckDuckGoSuspendedUntil
    if isDuckDuckGoSuspended then
      -- DuckDuckGo is suspended, go straight to Brave
      match brave with
      | .httpFail _ => ⟨.error .allProvidersFailed, s, 0, 1⟩
      | .ok results =>
        ⟨.ok { query := displayQuery query enhancedQuery
               totalResults := results.length
               searchProvider := "Brave (DDG suspended)"
               results := results }, s, 0, 1⟩
    else
      match ddg with
      | .httpFail _ =>
        -- searchDuckDuckGo threw; catch: suspend and fall back to Brave
        let s1 := suspendDuckDuckGo now s
        match brave with
        | .httpFail _ => ⟨.error .allProvidersFailed, s1, 1, 1⟩
        | .ok results =>
          ⟨.ok { query := displayQuery query enhancedQuery
                 totalResults := results.length
                 searchProvider := "Brave"
                 results := results }, s1, 1, 1⟩
      | .ok rows _htmlLength =>
        let results := parseSearchResults ce rows maxResults
        if results.length = 0 ∧ isLikelyRateLimited enhancedQuery then
          -- suspend, then `throw 'DuckDuckGo rate limited'`, which the
          -- enclosing catch handles by suspending again and trying Brave
          let s1 := suspendDuckDuckGo now s
          let s2 := suspendDuckDuckGo now s1
          match brave with
          | .httpFail _ => ⟨.error .allProvidersFailed, s2, 1, 1⟩
          | .ok bresults =>
            ⟨.ok { query := displayQuery query enhancedQuery
                   totalResults := bresults.length
                   searchProvider := "Brave"
                   results := bresults }, s2, 1, 1⟩
        else
          -- reset suspension count on successful DuckDuckGo search
          let s1 := if s.suspensionCount > 0 then { s with suspensionCount := 0 } else s
          ⟨.ok { query := displayQuery query enhancedQuery
                 totalResults := results.length
                 searchProvider := "DuckDuckGo"
                 results := results }, s1, 1, 0⟩

/-- A concrete `ContentExtractor` for evaluating the model on closed
inputs (its value never influences the control flow under scrutiny). -/
def ceTrivial : ContentExtractor :=
  { extractKeywords := fun _ _ => []
    createIntelligentSummary := fun _ _ _ => "" }

/-- Ledger after ten requests admitted at one-second intervals (times 0 ms
through 9000 ms): the state in which the 11th `waitForRequest` call hits
the sliding-window cap. -/
def ledgerTenRequests : RequestLedger :=
  { lastRequestTime := 9000
    requestCount := 10
    requestTimes := [0, 1000, 2000, 3000, 4000, 5000, 6000, 7000, 8000, 9000] }

/-! ### Claims -/

/-- C1: every suspension event increments the count, and with `c` the count
after that increment, the duration is `20min * min(2^(c-1), 6)` — the
sequence 20, 40, 80, 120, 120, 120, … minutes — and `suspendedUntil`
becomes `now + duration`. -/
theorem suspend_backoff_formula (now : Int) (s : SuspensionState) :
    (suspendDuckDuckGo now s).suspensionCount = s.suspensionCount + 1 ∧
    (suspendDuckDuckGo now s).duckDuckGoSuspendedUntil =
      now + ((SUSPENSION_DURATION *
        min (2 ^ ((suspendDuckDuckGo now s).suspensionCount - 1)) 6 : Nat) : Int) ∧
    [1, 2, 3, 4, 5, 6].map
        (fun c => SUSPENSION_DURATION * min (2 ^ (c - 1)) 6) =
      [20, 40, 80, 120, 120, 120].map (fun m => m * 60 * 1000) := by
  refine ⟨rfl, ?_, by decide⟩
  simp [suspendDuckDuckGo]

/-- C9: `getUserAgent` returns the entry of the fixed 5-element
`searchAgents` list at index `requestCount % 5`, hence is periodic with
period 5 in the request counter. -/
theorem getUserAgent_rotation (n : Nat) :
    searchAgents.length = 5 ∧
    searchAgents.Nodup ∧
    getUserAgent n = searchAgents.getD (n % 5) "" ∧
    getUserAgent (n + 5) = getUserAgent n := by
  have hlen : searchAgents.length = 5 := rfl
  refine ⟨hlen, by decide, by rw [getUserAgent, hlen], ?_⟩
  rw [getUserAgent, getUserAgent, hlen, Nat.add_mod_right]

/-- C4 (code bug): with ten requests admitted at 0..9000 ms, the 11th call
at `now = 10000` hits the window cap, but the code's Policy A sleep
`oneMinuteAgo - oldestRequest + 1000 = -49000` clamps to 0 ms (its sign is
flipped relative to the comment "Wait until oldest request is > 1 min
old"), so the call only waits the 1000 ms of Policy B and is admitted at
11000 ms — long before the oldest timestamp (0 ms) is 60 s old. -/
theorem waitForRequest_window_cap_not_enforced :
    (cleanOldRequestTimes (10000 - 60000) ledgerTenRequests.requestTimes).length =
      maxRequestsPerMinute ∧
    policyAWait 10000 ledgerTenRequests = 0 ∧
    (waitForRequest 10000 ledgerTenRequests).1 = 1000 ∧
    (waitForRequest 10000 ledgerTenRequests).2.lastRequestTime <
      ledgerTenRequests.requestTimes.headD 0 + 60000 := by
  decide

/-- C8: when less than 2000 ms elapsed since the last admitted request,
Policy B sleeps exactly the remainder, the call's total wait is the Policy A
sleep plus the Policy B sleep (the two sequential sleeps of
`waitForRequest`, in that order), and the newly recorded request time is at
least 2000 ms after the previous one. -/
theorem waitForRequest_min_spacing (now : Int) (l : RequestLedger)
    (h0 : l.lastRequestTime ≤ now) (h : now - l.lastRequestTime < 2000) :
    policyBWait now l = ((2000 : Int) - (now - l.lastRequestTime)).toNat ∧
    (waitForRequest now l).1 = policyAWait now l + policyBWait now l ∧
    l.lastRequestTime + 2000 ≤ (waitForRequest now l).2.lastRequestTime := by
  have hB : policyBWait now l = ((2000 : Int) - (now - l.lastRequestTime)).toNat := by
    simp only [policyBWait, minDelay]
    rw [if_pos (by exact_mod_cast h)]
    norm_num
  refine ⟨hB, rfl, ?_⟩
  simp only [waitForRequest, hB]
  omega

/-- C8 witness: at `now = 1500` with the last request admitted at 1000 ms,
Policy B sleeps the remaining 1500 ms. -/
theorem waitForRequest_min_spacing_witness :
    policyBWait 1500 ⟨1000, 1, [1000]⟩ = ((2000 : Int) - (1500 - 1000)).toNat ∧
    (waitForRequest 1500 ⟨1000, 1, [1000]⟩).1 =
      policyAWait 1500 ⟨1000, 1, [1000]⟩ + policyBWait 1500 ⟨1000, 1, [1000]⟩ ∧
    (1000 : Int) + 2000 ≤ (waitForRequest 1500 ⟨1000, 1, [1000]⟩).2.lastRequestTime :=
  waitForRequest_min_spacing 1500 ⟨1000, 1, [1000]⟩ (by decide) (by decide)

/-- C2: while `now < duckDuckGoSuspendedUntil`, a valid `execute` call
never enters `searchDuckDuckGo`, enters `searchBrave` exactly once, and any
returned response carries the "Brave (DDG suspended)" provider label. -/
theorem execute_suspended_skips_primary
    (ce : ContentExtractor) (now : Int) (s : SuspensionState)
    (query : String) (maxResults : Int) (enhancedQuery : String)
    (ddg : DdgOutcome) (brave : BraveOutcome)
    (hq : ¬ blankQuery query = true)
    (hm : ¬ maxResults > 50)
    (hs : now < s.duckDuckGoSuspendedUntil) :
    (execute ce now s query maxResults enhancedQuery ddg brave).primaryCalls = 0 ∧
    (execute ce now s query maxResults enhancedQuery ddg brave).secondaryCalls = 1 ∧
    ∀ resp,
      (execute ce now s query maxResults enhancedQuery ddg brave).outcome = .ok resp →
        resp.searchProvider = "Brave (DDG suspended)" := by
  simp only [execute, if_neg hq, if_neg hm, if_pos hs]
  cases brave <;> simp_all

/-- C2 witness: a suspended state at `now = 0 < suspendedUntil = 1000`. -/
theorem execute_suspended_skips_primary_witness :
    (execute ceTrivial 0 ⟨1000, 1⟩ "test" 10 "test" (.ok [] 0) (.ok [])).primaryCalls = 0 ∧
    (execute ceTrivial 0 ⟨1000, 1⟩ "test" 10 "test" (.ok [] 0) (.ok [])).secondaryCalls = 1 ∧
    ∀ resp,
      (execute ceTrivial 0 ⟨1000, 1⟩ "test" 10 "test" (.ok [] 0) (.ok [])).outcome = .ok resp →
        resp.searchProvider = "Brave (DDG suspended)" :=
  execute_suspended_skips_primary ceTrivial 0 ⟨1000, 1⟩ "test" 10 "test" (.ok [] 0) (.ok [])
    (by decide) (by decide) (by decide)

/-- C7: an empty/whitespace-only query or `maxResults > 50` makes `execute`
throw one of the two validation errors before either provider's search
method runs (so no network request is dispatched and the request ledger is
untouched), and the suspension state is unchanged. -/
theorem execute_invalid_args_no_provider_call
    (ce : ContentExtractor) (now : Int) (s : SuspensionState)
    (query : String) (maxResults : Int) (enhancedQuery : String)
    (ddg : DdgOutcome) (brave : BraveOutcome)
    (h : blankQuery query = true ∨ maxResults > 50) :
    ((execute ce now s query maxResults enhancedQuery ddg brave).outcome =
        .error .emptyQuery ∨
      (execute ce now s query maxResults enhancedQuery ddg brave).outcome =
        .error .maxResultsExceeded) ∧
    (execute ce now s query maxResults enhancedQuery ddg brave).state = s ∧
    (execute ce now s query maxResults enhancedQuery ddg brave).primaryCalls = 0 ∧
    (execute ce now s query maxResults enhancedQuery ddg brave).secondaryCalls = 0 := by
  by_cases hq : blankQuery query = true
  · simp [execute, if_pos hq]
  · have hm : maxResults > 50 := h.resolve_left hq
    simp [execute, if_neg hq, if_pos hm]

/-- C7 witness: `maxResults = 51` with a non-empty query. -/
theorem execute_invalid_args_no_provider_call_witness :
    ((execute ceTrivial 0 ⟨0, 0⟩ "test" 51 "test" (.ok [] 0) (.ok [])).outcome =
        .error .emptyQuery ∨
      (execute ceTrivial 0 ⟨0, 0⟩ "test" 51 "test" (.ok [] 0) (.ok [])).outcome =
        .error .maxResultsExceeded) ∧
    (execute ceTrivial 0 ⟨0, 0⟩ "test" 51 "test" (.ok [] 0) (.ok [])).state = ⟨0, 0⟩ ∧
    (execute ceTrivial 0 ⟨0, 0⟩ "test" 51 "test" (.ok [] 0) (.ok [])).primaryCalls = 0 ∧
    (execute ceTrivial 0 ⟨0, 0⟩ "test" 51 "test" (.ok [] 0) (.ok [])).secondaryCalls = 0 :=
  execute_invalid_args_no_provider_call ceTrivial 0 ⟨0, 0⟩ "test" 51 "test" (.ok [] 0)
    (.ok []) (Or.inr (by decide))

/-- C6: a valid call in which DuckDuckGo is attempted and parses at least
one result returns a "DuckDuckGo"-labeled response and leaves the
suspension count at 0, whatever its prior value. -/
theorem execute_primary_success_resets_count
    (ce : ContentExtractor) (now : Int) (s : SuspensionState)
    (query : String) (maxResults : Int) (enhancedQuery : String)
    (rows : List RawRow) (htmlLength : Nat) (brave : BraveOutcome)
    (hq : ¬ blankQuery query = true)
    (hm : ¬ maxResults > 50)
    (hs : ¬ now < s.duckDuckGoSuspendedUntil)
    (hr : (parseSearchResults ce rows maxResults).length ≠ 0) :
    (execute ce now s query maxResults enhancedQuery (.ok rows htmlLength)
        brave).state.suspensionCount = 0 ∧
    (execute ce now s query maxResults enhancedQuery (.ok rows htmlLength)
        brave).outcome =
      .ok { query := displayQuery query enhancedQuery
            totalResults := (parseSearchResults ce rows maxResults).length
            searchProvider := "DuckDuckGo"
            results := parseSearchResults ce rows maxResults } := by
  have hcond : ¬((parseSearchResults ce rows maxResults).length = 0 ∧
      isLikelyRateLimited enhancedQuery = true) := fun hc => hr hc.1
  simp only [execute, if_neg hq, if_neg hm, if_neg hs, if_neg hcond]
  rcases Nat.eq_zero_or_pos s.suspensionCount with h0 | hpos
  · simp [if_neg, h0]
  · simp [if_pos hpos]

/-- C6 witness: prior count 3, one parsed result. -/
theorem execute_primary_success_resets_count_witness :
    (execute ceTrivial 0 ⟨0, 3⟩ "test" 10 "test"
        (.ok [⟨"t", "u", "s"⟩] 5000) (.ok [])).state.suspensionCount = 0 ∧
    (execute ceTrivial 0 ⟨0, 3⟩ "test" 10 "test"
        (.ok [⟨"t", "u", "s"⟩] 5000) (.ok [])).outcome =
      .ok { query := displayQuery "test" "test"
            totalResults := (parseSearchResults ceTrivial [⟨"t", "u", "s"⟩] 10).length
            searchProvider := "DuckDuckGo"
            results := parseSearchResults ceTrivial [⟨"t", "u", "s"⟩] 10 } :=
  execute_primary_success_resets_count ceTrivial 0 ⟨0, 3⟩ "test" 10 "test"
    [⟨"t", "u", "s"⟩] 5000 (.ok []) (by decide) (by decide) (by decide) (by decide)

/-- C3 counterexample: a 200 response with zero parsed results and a
300-character body is NOT returned as a genuine empty DuckDuckGo result
set: `isLikelyRateLimited` returns `true` unconditionally, so the call
suspends DuckDuckGo (twice — once in the zero-result branch, once in the
catch handler), leaving `suspensionCount = 2` and a 40-minute suspension,
and returns Brave's results labeled "Brave". -/
theorem zero_results_small_body_still_suspends :
    (execute ceTrivial 0 ⟨0, 0⟩ "test" 10 "test" (.ok [] 300)
        (.ok [])).state.suspensionCount = 2 ∧
    (execute ceTrivial 0 ⟨0, 0⟩ "test" 10 "test" (.ok [] 300)
        (.ok [])).state.duckDuckGoSuspendedUntil = 2400000 ∧
    (execute ceTrivial 0 ⟨0, 0⟩ "test" 10 "test" (.ok [] 300) (.ok [])).outcome =
      .ok { query := "test", totalResults := 0, searchProvider := "Brave",
            results := [] } :=
  ⟨rfl, rfl, rfl⟩

/-- C3 amended: a 200 DuckDuckGo response with zero parsed results is
always classified as likely rate-limiting, regardless of body size: the
call suspends DuckDuckGo — the suspension count rises by 2, once in the
zero-result branch and once in the surrounding catch handler — and falls
back to Brave, whose response (if any) is labeled "Brave". -/
theorem execute_zero_results_always_soft_block
    (ce : ContentExtractor) (now : Int) (s : SuspensionState)
    (query : String) (maxResults : Int) (enhancedQuery : String)
    (rows : List RawRow) (htmlLength : Nat) (brave : BraveOutcome)
    (hq : ¬ blankQuery query = true)
    (hm : ¬ maxResults > 50)
    (hs : ¬ now < s.duckDuckGoSuspendedUntil)
    (hr : (parseSearchResults ce rows maxResults).length = 0) :
    (execute ce now s query maxResults enhancedQuery (.ok rows htmlLength) brave).state =
      suspendDuckDuckGo now (suspendDuckDuckGo now s) ∧
    (execute ce now s query maxResults enhancedQuery (.ok rows htmlLength)
        brave).state.suspensionCount = s.suspensionCount + 2 ∧
    (execute ce now s query maxResults enhancedQuery (.ok rows htmlLength)
        brave).primaryCalls = 1 ∧
    (execute ce now s query maxResults enhancedQuery (.ok rows htmlLength)
        brave).secondaryCalls = 1 ∧
    ∀ resp,
      (execute ce now s query maxResults enhancedQuery (.ok rows htmlLength)
          brave).outcome = .ok resp →
        resp.searchProvider = "Brave" := by
  have hcond : (parseSearchResults ce rows maxResults).length = 0 ∧
      isLikelyRateLimited enhancedQuery = true := ⟨hr, rfl⟩
  simp only [execute, if_neg hq, if_neg hm, if_neg hs, if_pos hcond]
  cases brave <;> simp [suspendDuckDuckGo]

/-- C3 amended witness: zero rows, 300-character body, prior count 0. -/
theorem execute_zero_results_always_soft_block_witness :
    (execute ceTrivial 0 ⟨0, 0⟩ "test" 10 "test" (.ok [] 300) (.ok [])).state =
      suspendDuckDuckGo 0 (suspendDuckDuckGo 0 ⟨0, 0⟩) ∧
    (execute ceTrivial 0 ⟨0, 0⟩ "test" 10 "test" (.ok [] 300)
        (.ok [])).state.suspensionCount = 0 + 2 ∧
    (execute ceTrivial 0 ⟨0, 0⟩ "test" 10 "test" (.ok [] 300)
        (.ok [])).primaryCalls = 1 ∧
    (execute ceTrivial 0 ⟨0, 0⟩ "test" 10 "test" (.ok [] 300)
        (.ok [])).secondaryCalls = 1 ∧
    ∀ resp,
      (execute ceTrivial 0 ⟨0, 0⟩ "test" 10 "test" (.ok [] 300)
          (.ok [])).outcome = .ok resp →
        resp.searchProvider = "Brave" :=
  execute_zero_results_always_soft_block ceTrivial 0 ⟨0, 0⟩ "test" 10 "test" [] 300
    (.ok []) (by decide) (by decide) (by decide) (by decide)

/-- C5 counterexample: with DuckDuckGo suspended (a carry-over from an
earlier call) and Brave failing, `execute` surfaces the aggregate
"all providers failed" error even though the primary was never invoked in
this call (and its outcome, had it been invoked, would have succeeded) —
so the aggregate error does not require both providers to fail within the
same call. -/
theorem aggregate_failure_without_primary_failing_in_call :
    (execute ceTrivial 0 ⟨1000, 1⟩ "test" 10 "test" (.ok [⟨"t", "u", "s"⟩] 9000)
        (.httpFail 500)).outcome = .error .allProvidersFailed ∧
    (execute ceTrivial 0 ⟨1000, 1⟩ "test" 10 "test" (.ok [⟨"t", "u", "s"⟩] 9000)
        (.httpFail 500)).primaryCalls = 0 :=
  ⟨rfl, rfl⟩

/-- C5 amended: a valid `execute` call surfaces the aggregate failure only
when the secondary (Brave) fails and the primary was either suspended or
itself failed in the same call (HTTP error or zero-result soft block); and
whenever a primary failure is recovered by a successful secondary call, no
error is raised. -/
theorem execute_aggregate_failure_characterisation
    (ce : ContentExtractor) (now : Int) (s : SuspensionState)
    (query : String) (maxResults : Int) (enhancedQuery : String)
    (ddg : DdgOutcome) (brave : BraveOutcome)
    (hq : ¬ blankQuery query = true)
    (hm : ¬ maxResults > 50) :
    ((execute ce now s query maxResults enhancedQuery ddg brave).outcome =
        .error .allProvidersFailed →
      (∃ st, brave = .httpFail st) ∧
      (now < s.duckDuckGoSuspendedUntil ∨ (∃ st, ddg = .httpFail st) ∨
        ∃ rows len, ddg = .ok rows len ∧
          (parseSearchResults ce rows maxResults).length = 0)) ∧
    (∀ results, brave = .ok results →
      ((∃ st, ddg = .httpFail st) ∨
        ∃ rows len, ddg = .ok rows len ∧
          (parseSearchResults ce rows maxResults).length = 0) →
      ∃ resp,
        (execute ce now s query maxResults enhancedQuery ddg brave).outcome =
          .ok resp) := by
  simp only [execute, if_neg hq, if_neg hm]
  by_cases hsusp : now < s.duckDuckGoSuspendedUntil
  · rw [if_pos hsusp]
    cases brave with
    | httpFail st =>
      constructor
      · intro _; exact ⟨⟨st, rfl⟩, Or.inl hsusp⟩
      · intro results h; simp at h
    | ok results =>
      constructor
      · intro h; simp at h
      · intro _ _ _; exact ⟨_, rfl⟩
  · rw [if_neg hsusp]
    cases ddg with
    | httpFail st =>
      dsimp only
      cases brave with
      | httpFail st2 =>
        constructor
        · intro _; exact ⟨⟨st2, rfl⟩, Or.inr (Or.inl ⟨st, rfl⟩)⟩
        · intro results h; simp at h
      | ok results =>
        constructor
        · intro h; simp at h
        · intro _ _ _; exact ⟨_, rfl⟩
    | ok rows len =>
      dsimp only
      by_cases hr : (parseSearchResults ce rows maxResults).length = 0
      · rw [if_pos ⟨hr, rfl⟩]
        cases brave with
        | httpFail st2 =>
          constructor
          · intro _; exact ⟨⟨st2, rfl⟩, Or.inr (Or.inr ⟨rows, len, rfl, hr⟩)⟩
          · intro results h; simp at h
        | ok results =>
          constructor
          · intro h; simp at h
          · intro _ _ _; exact ⟨_, rfl⟩
      · rw [if_neg (fun hc => hr hc.1)]
        constructor
        · intro h; simp at h
        · intro results hb hd
          rcases hd with ⟨st, hst⟩ | ⟨rows2, len2, heq, hr2⟩
          · simp at hst
          · simp only [DdgOutcome.ok.injEq] at heq
            exact absurd (heq.1 ▸ hr2) hr

/-- C5 amended witness: primary HTTP 429, secondary succeeds — recovered,
no error; and the aggregate-error direction holds vacuously there. -/
theorem execute_aggregate_failure_characterisation_witness :
    ((execute ceTrivial 0 ⟨0, 0⟩ "test" 10 "test" (.httpFail 429)
        (.ok [])).outcome = .error .allProvidersFailed →
      (∃ st, (BraveOutcome.ok ([] : List SearchResult)) = .httpFail st) ∧
      ((0 : Int) < (0 : Int) ∨ (∃ st, (DdgOutcome.httpFail 429) = .httpFail st) ∨
        ∃ rows len, (DdgOutcome.httpFail 429) = .ok rows len ∧
          (parseSearchResults ceTrivial rows 10).length = 0)) ∧
    (∀ results, (BraveOutcome.ok ([] : List SearchResult)) = .ok results →
      ((∃ st, (DdgOutcome.httpFail 429) = .httpFail st) ∨
        ∃ rows len, (DdgOutcome.httpFail 429) = .ok rows len ∧
          (parseSearchResults ceTrivial rows 10).length = 0) →
      ∃ resp,
        (execute ceTrivial 0 ⟨0, 0⟩ "test" 10 "test" (.httpFail 429)
            (.ok [])).outcome = .ok resp) :=
  execute_aggregate_failure_characterisation ceTrivial 0 ⟨0, 0⟩ "test" 10 "test"
    (.httpFail 429) (.ok []) (by decide) (by decide)

/-- Auxiliary: the parse loop never grows its accumulator beyond
`maxResults` (clamped at zero). -/
theorem parseLoop_length_le (ce : ContentExtractor) (m : Int) (rows : List RawRow) :
    ∀ acc : List SearchResult, (parseLoop ce m rows acc).length ≤ max acc.length m.toNat := by
  induction rows with
  | nil => intro acc; simp [parseLoop]
  | cons row rest ih =>
    intro acc
    simp only [parseLoop]
    by_cases hge : (acc.length : Int) ≥ m
    · rw [if_pos hge]; exact Nat.le_max_left _ _
    · rw [if_neg hge]
      by_cases hskip : row.title = "" ∨ row.url = ""
      · rw [if_pos hskip]; exact ih acc
      · rw [if_neg hskip]
        refine le_trans (ih _) ?_
        simp only [List.length_append, List.length_cons, List.length_nil]
        omega

/-- C10: `execute` enforces no lower bound on `maxResults` — a call with a
non-blank query and `maxResults ≤ 50` (including zero or negative) never
throws a validation error — and `parseSearchResults` truncates every row
list to at most `max(maxResults, 0)` results, so a non-positive
`maxResults` always parses to the empty result list. -/
theorem maxResults_no_lower_bound
    (ce : ContentExtractor) (rows : List RawRow)
    (now : Int) (s : SuspensionState) (query : String) (maxResults : Int)
    (enhancedQuery : String) (ddg : DdgOutcome) (brave : BraveOutcome)
    (hq : ¬ blankQuery query = true) (hm : maxResults ≤ 50) :
    ((parseSearchResults ce rows maxResults).length : Int) ≤ max maxResults 0 ∧
    (maxResults ≤ 0 → parseSearchResults ce rows maxResults = []) ∧
    (execute ce now s query maxResults enhancedQuery ddg brave).outcome ≠
      .error .emptyQuery ∧
    (execute ce now s query maxResults enhancedQuery ddg brave).outcome ≠
      .error .maxResultsExceeded := by
  have hm' : ¬ maxResults > 50 := not_lt.mpr hm
  have hnoarg : ∀ e, (execute ce now s query maxResults enhancedQuery ddg brave).outcome =
      .error e → e = .allProvidersFailed := by
    simp only [execute, if_neg hq, if_neg hm']
    by_cases hsusp : now < s.duckDuckGoSuspendedUntil
    · rw [if_pos hsusp]
      cases brave <;> (intro e he; simp at he; try simp [he])
    · rw [if_neg hsusp]
      cases ddg with
      | httpFail st =>
        dsimp only
        cases brave <;> (intro e he; simp at he; try simp [he])
      | ok rows2 len2 =>
        dsimp only
        by_cases hr : (parseSearchResults ce rows2 maxResults).length = 0
        · rw [if_pos ⟨hr, rfl⟩]
          cases brave <;> (intro e he; simp at he; try simp [he])
        · rw [if_neg (fun hc => hr hc.1)]
          intro e he; simp at he
  refine ⟨?_, ?_, ?_, ?_⟩
  · have h := parseLoop_length_le ce maxResults rows []
    simp only [List.length_nil, Nat.zero_max] at h
    have h2 : (parseSearchResults ce rows maxResults).length ≤ maxResults.toNat := h
    omega
  · intro hle
    cases rows with
    | nil => rfl
    | cons row rest =>
      show parseLoop ce maxResults (row :: rest) [] = []
      simp only [parseLoop, List.length_nil]
      rw [if_pos (by exact_mod_cast hle)]
  · intro h
    have := hnoarg _ h
    simp at this
  · intro h
    have := hnoarg _ h
    simp at this

/-- C10 witness: `maxResults = -3` with a candidate row: no validation
error and an empty parsed result list. -/
theorem maxResults_no_lower_bound_witness :
    ((parseSearchResults ceTrivial [⟨"t", "u", "s"⟩] (-3)).length : Int) ≤ max (-3) 0 ∧
    ((-3 : Int) ≤ 0 → parseSearchResults ceTrivial [⟨"t", "u", "s"⟩] (-3) = []) ∧
    (execute ceTrivial 0 ⟨0, 0⟩ "test" (-3) "test" (.ok [⟨"t", "u", "s"⟩] 9000)
        (.ok [])).outcome ≠ .error .emptyQuery ∧
    (execute ceTrivial 0 ⟨0, 0⟩ "test" (-3) "test" (.ok [⟨"t", "u", "s"⟩] 9000)
        (.ok [])).outcome ≠ .error .maxResultsExceeded :=
  maxResults_no_lower_bound ceTrivial [⟨"t", "u", "s"⟩] 0 ⟨0, 0⟩ "test" (-3) "test"
    (.ok [⟨"t", "u", "s"⟩] 9000) (.ok []) (by decide) (by decide)
